import Mathlib

/-!
Shallow embedding of the PROMIS assessment engine of this repository
(the form list, the item/option normaliser, the score deriver, the
pediatric short-form classifier, the per-form assessment session store and
the adaptive/fixed session state machine).

JavaScript numbers are modelled exactly as decimal fractions (`Dec`); the
results of the JS coercions `Number(...)` and `parseFloat(...)` are modelled
by `JsNum` (finite decimal, an infinity, or NaN).  JSON scalars read from
payload fields are modelled by `JsVal` (number or string).  Out of model, and
noted where relevant: exponent and hexadecimal numeric notation, and JSON
values other than numbers and strings (null, booleans, nested objects) in
the scalar fields the code coerces to numbers.
-/

namespace Promis

/-- Exact decimal fraction `mant / 10 ^ exp`: the value space of the JS
numbers this program manipulates (they all arise from decimal literals in
JSON or from decimal strings). -/
structure Dec where
  mant : Int
  exp : Nat
deriving DecidableEq, Repr

/-- Value equality of decimal fractions, by cross multiplication. -/
def decEqv (a b : Dec) : Bool :=
  a.mant * (10 : Int) ^ b.exp == b.mant * (10 : Int) ^ a.exp

/-- Value order on decimal fractions, by cross multiplication. -/
def decLt (a b : Dec) : Bool :=
  decide (a.mant * (10 : Int) ^ b.exp < b.mant * (10 : Int) ^ a.exp)

/-- Result of a JS numeric coercion: a finite decimal, an infinity, or NaN. -/
inductive JsNum where
  | fin (d : Dec)
  | posInf
  | negInf
  | nan
deriving DecidableEq, Repr

/-- Numeric value equality, as used by the `!==` comparison on comparator
keys.  The keys this program compares are never NaN (`getItemOrder` and
`getOptionOrder` are total and NaN-free), so the `nan` case is unreachable
in those uses. -/
def jsEq : JsNum → JsNum → Bool
  | .fin a, .fin b => decEqv a b
  | .posInf, .posInf => true
  | .negInf, .negInf => true
  | .nan, .nan => true
  | _, _ => false

/-- Numeric order (the sign of JS subtraction) on non-NaN values. -/
def jsLt : JsNum → JsNum → Bool
  | .fin a, .fin b => decLt a b
  | .fin _, .posInf => true
  | .negInf, .fin _ => true
  | .negInf, .posInf => true
  | _, _ => false

/-- A JSON scalar as it appears in the fields this program reads. -/
inductive JsVal where
  | num (d : Dec)
  | str (s : String)
deriving DecidableEq, Repr

/-- Numeric value of a decimal digit character. -/
def digitVal (c : Char) : Nat := c.toNat - 48

/-- Consume a run of decimal digits, accumulating value and digit count. -/
def takeDigits : List Char → Nat → Nat → Nat × Nat × List Char
  | [], acc, cnt => (acc, cnt, [])
  | c :: rest, acc, cnt =>
    if c.isDigit then takeDigits rest (acc * 10 + digitVal c) (cnt + 1)
    else (acc, cnt, c :: rest)

/-- Parse an unsigned decimal prefix `digits [. digits]` with at least one
digit, returning its exact value and the unconsumed rest. -/
def parseUnsigned (cs : List Char) : Option (Dec × List Char) :=
  let (ip, ic, r1) := takeDigits cs 0 0
  match r1 with
  | '.' :: r2 =>
    let (fp, fc, r3) := takeDigits r2 0 0
    if ic + fc == 0 then none
    else some (⟨(ip : Int) * (10 : Int) ^ fc + (fp : Int), fc⟩, r3)
  | _ => if ic == 0 then none else some (⟨(ip : Int), 0⟩, r1)

/-- Split an optional leading sign character. -/
def signSplit : List Char → Bool × List Char
  | '-' :: r => (true, r)
  | '+' :: r => (false, r)
  | cs => (false, cs)

/-- The characters of the literal accepted as an infinity by JS parsing. -/
def infinityChars : List Char := ['I', 'n', 'f', 'i', 'n', 'i', 't', 'y']

/-- Whether the first list is an initial run of the second. -/
def leadsWith : List Char → List Char → Bool
  | [], _ => true
  | _ :: _, [] => false
  | a :: more, b :: rest => a == b && leadsWith more rest

/-- Negate a decimal fraction. -/
def negDec (d : Dec) : Dec := ⟨-d.mant, d.exp⟩

/-- Apply a parsed sign. -/
def signApply (neg : Bool) (d : Dec) : Dec := if neg then negDec d else d

/-- Drop whitespace from both ends of a character list. -/
def trimChars (cs : List Char) : List Char :=
  ((cs.dropWhile Char.isWhitespace).reverse.dropWhile Char.isWhitespace).reverse

/-- JS `Number(string)`: trims whitespace, the empty string is `0`, an exact
signed decimal or `Infinity` literal must consume the whole string, anything
else is NaN. -/
def jsNumberStr (s : String) : JsNum :=
  let cs := trimChars s.data
  if cs.isEmpty then .fin ⟨0, 0⟩
  else
    let (neg, cs1) := signSplit cs
    if cs1 == infinityChars then (if neg then .negInf else .posInf)
    else
      match parseUnsigned cs1 with
      | some (d, []) => .fin (signApply neg d)
      | _ => .nan

/-- JS `parseFloat(string)`: skips leading whitespace, reads the longest
signed decimal or `Infinity` lead of the string, NaN if there is none. -/
def jsParseFloatStr (s : String) : JsNum :=
  let (neg, cs1) := signSplit (s.data.dropWhile Char.isWhitespace)
  if leadsWith infinityChars cs1 then (if neg then .negInf else .posInf)
  else
    match parseUnsigned cs1 with
    | some (d, _) => .fin (signApply neg d)
    | none => .nan

/-- JS `Number(value)` on a JSON scalar. -/
def jsNumberVal : JsVal → JsNum
  | .num d => .fin d
  | .str s => jsNumberStr s

/-- JS `parseFloat(value)` on a JSON scalar (a number round-trips through
its decimal string unchanged). -/
def jsParseFloatVal : JsVal → JsNum
  | .num d => .fin d
  | .str s => jsParseFloatStr s

/-- JS `Number(value)` where the value may be `undefined` (NaN). -/
def jsNumberOpt : Option JsVal → JsNum
  | none => .nan
  | some v => jsNumberVal v

/-- JS truthiness of a JSON scalar: zero and the empty string are falsy. -/
def jsValTruthy : JsVal → Bool
  | .num d => !(decEqv d ⟨0, 0⟩)
  | .str s => !(s.data.isEmpty)

/-- JS truthiness of an optional JSON scalar (`undefined` is falsy). -/
def jsTruthyOpt : Option JsVal → Bool
  | none => false
  | some v => jsValTruthy v

/-- Decimal digits of a natural number. -/
def natDigits (n : Nat) : String := Nat.repr n

/-- Remove trailing fractional zeros from a scaled mantissa. -/
def stripZeros : Nat → Nat → Nat × Nat
  | m, 0 => (m, 0)
  | m, Nat.succ e => if m % 10 == 0 then stripZeros (m / 10) e else (m, Nat.succ e)

/-- JS `String(number)` for a finite decimal: shortest decimal form, no
trailing fractional zeros. -/
def decDisplay (d : Dec) : String :=
  let sign := if d.mant < 0 then "-" else ""
  let (m, e) := stripZeros d.mant.natAbs d.exp
  if e == 0 then sign ++ natDigits m
  else
    let ds := (natDigits m).data
    let ds := if ds.length ≤ e then List.replicate (e + 1 - ds.length) '0' ++ ds else ds
    let k := ds.length - e
    sign ++ String.mk (ds.take k) ++ "." ++ String.mk (ds.drop k)

/-- JS string interpolation of a JSON scalar. -/
def jsValDisplay : JsVal → String
  | .num d => decDisplay d
  | .str s => s

/-- The quantity floor(d * 10 ^ f + 1/2) computed exactly on integers: the digit count
`toFixed` keeps. -/
def roundHalfUpScaled (d : Dec) (f : Nat) : Int :=
  Int.fdiv (2 * d.mant * (10 : Int) ^ f + (10 : Int) ^ d.exp) (2 * (10 : Int) ^ d.exp)

/-- JS `toFixed(f)` for a finite decimal (round half up, `f` digits after
the point). -/
def decToFixed (f : Nat) (d : Dec) : String :=
  let n := roundHalfUpScaled d f
  let sign := if n < 0 then "-" else ""
  let ds := (natDigits n.natAbs).data
  if f == 0 then sign ++ String.mk ds
  else
    let ds := if ds.length ≤ f then List.replicate (f + 1 - ds.length) '0' ++ ds else ds
    let k := ds.length - f
    sign ++ String.mk (ds.take k) ++ "." ++ String.mk (ds.drop k)

/-- JS `toFixed(f)` on any coercion result. -/
def jsToFixed (f : Nat) : JsNum → String
  | .fin d => decToFixed f d
  | .posInf => "Infinity"
  | .negInf => "-Infinity"
  | .nan => "NaN"

/-- Substring search over character lists, as JS `String.prototype.includes`. -/
def charsHas (needle : List Char) : List Char → Bool
  | [] => needle.isEmpty
  | c :: rest => leadsWith needle (c :: rest) || charsHas needle rest

/-- JS `hay.includes(sub)`. -/
def strIncludes (hay sub : String) : Bool := charsHas sub.data hay.data

/-- JS `toLowerCase` (ASCII; the identifiers and names compared here are
ASCII). -/
def strLower (s : String) : String := String.mk (s.data.map Char.toLower)

/-- The JS constant `Number.MAX_SAFE_INTEGER`. -/
def maxSafeInteger : Dec := ⟨9007199254740991, 0⟩

/-- A raw option-map entry of a form-detail element (`element.Map[i]`). -/
structure RawOption where
  Value : Option JsVal := none
  Description : Option String := none
  Label : Option String := none
  Order : Option JsVal := none
  ItemResponseOID : Option String := none
  ItemResponseOid : Option String := none
  ItemResponseID : Option String := none
  ItemResponseId : Option String := none
deriving DecidableEq, Repr

/-- An element of an item: optional descriptive text and an option map. -/
structure Element where
  Description : Option String := none
  Map : List RawOption := []
deriving DecidableEq, Repr

/-- An item (question) record of a form-detail document. -/
structure Item where
  ID : Option String := none
  ItemOrder : Option JsVal := none
  Order : Option JsVal := none
  Sequence : Option JsVal := none
  QuestionNumber : Option JsVal := none
  ItemPosition : Option JsVal := none
  Position : Option JsVal := none
  Elements : List Element := []
deriving DecidableEq, Repr

/-- The `Score` sub-object of a scoring payload. -/
structure ScoreObj where
  TScore : Option JsVal := none
  tScore : Option JsVal := none
deriving DecidableEq, Repr

/-- The `Results` sub-object of a scoring payload. -/
structure ResultsObj where
  TScore : Option JsVal := none
  tScore : Option JsVal := none
  Score : Option JsVal := none
deriving DecidableEq, Repr

/-- A JSON document returned by the assessment service: used both for the
next-item/terminal payloads of the stateless endpoint and for form-detail
documents (both are read through the same field accesses). -/
structure Payload where
  Items : List Item := []
  Theta : Option JsVal := none
  StdError : Option JsVal := none
  Message : Option String := none
  tScore : Option JsVal := none
  TScore : Option JsVal := none
  tscore : Option JsVal := none
  Score : Option ScoreObj := none
  Results : Option ResultsObj := none
deriving DecidableEq, Repr

/-- A form summary from the forms listing. -/
structure Form where
  OID : Option String := none
  Name : Option String := none
  Title : Option String := none
  Description : Option String := none
  Population : Option String := none
deriving DecidableEq, Repr

/-- First value of the first run of decimal digits of the text, `undefined`
when the text is missing, falsy (empty) or digit-free
(`extractLeadingNumber`). -/
def firstDigitRun : List Char → Option Nat
  | [] => none
  | c :: rest =>
    if c.isDigit then some (takeDigits (c :: rest) 0 0).1 else firstDigitRun rest

/-- Source function `extractLeadingNumber(text)`. -/
def extractLeadingNumber (t : Option String) : Option Nat :=
  match t with
  | none => none
  | some s => if s.data.isEmpty then none else firstDigitRun s.data

/-- First non-NaN coercion among the candidates, else `MAX_SAFE_INTEGER`. -/
def pickFirstNum : List JsNum → JsNum
  | [] => .fin maxSafeInteger
  | c :: rest => if c == .nan then pickFirstNum rest else c

/-- Source function `getItemOrder(item)`: the first of
`ItemOrder, Order, Sequence, QuestionNumber, ItemPosition, Position,
extractLeadingNumber(ID)` whose `Number(...)` coercion is not NaN, else
`MAX_SAFE_INTEGER`. -/
def getItemOrder (it : Item) : JsNum :=
  pickFirstNum
    [jsNumberOpt it.ItemOrder, jsNumberOpt it.Order, jsNumberOpt it.Sequence,
     jsNumberOpt it.QuestionNumber, jsNumberOpt it.ItemPosition,
     jsNumberOpt it.Position,
     match extractLeadingNumber it.ID with
     | some n => .fin ⟨(n : Int), 0⟩
     | none => .nan]

/-- The identifier string used in comparisons (`(x?.ID ?? '').toString()`). -/
def idString (it : Item) : String := it.ID.getD ""

/-- Source function `compareItems(a, b)`: numeric order first, ties by identifier comparison
(`localeCompare`, modelled as code-point lexicographic comparison: the
identifiers are ASCII, where the default collation agrees). -/
def compareItems (a b : Item) : Ordering :=
  let oa := getItemOrder a
  let ob := getItemOrder b
  if jsEq oa ob then compare (idString a) (idString b)
  else if jsLt oa ob then .lt else .gt

/-- Stable insertion of `x` into a sorted list: before the first element it
does not compare greater than. -/
def insertCmp (cmp : α → α → Ordering) (x : α) : List α → List α
  | [] => [x]
  | y :: ys =>
    match cmp x y with
    | .gt => y :: insertCmp cmp x ys
    | _ => x :: y :: ys

/-- Stable sort by a comparator, as JS `Array.prototype.sort` (stable since
ES2019; the comparators used here are total preorders, for which the stable
result is unique). -/
def sortCmp (cmp : α → α → Ordering) (l : List α) : List α :=
  l.foldr (insertCmp cmp) []

/-- Source function `getOrderedItems(data)`: the document items sorted by `compareItems`. -/
def getOrderedItems (d : Payload) : List Item :=
  sortCmp compareItems d.Items

/-- Source function `extractQuestionText(item)`: the first element description, else the
item identifier, else a placeholder. -/
def extractQuestionText (it : Item) : String :=
  match it.Elements.findSome? (fun e => e.Description) with
  | some t => t
  | none => it.ID.getD "Untitled question"

/-- The derived option record built by `extractOptions`. -/
structure OptionRec where
  value : JsVal
  label : String
  order : JsNum
  responseKey : String
  displayLabel : String
deriving DecidableEq, Repr

/-- The response-key fallback chain
`ItemResponseOID ?? ItemResponseOid ?? ItemResponseID ?? ItemResponseId ??
Description ?? Value ?? ''` (with the JS string rendering of a value). -/
def firstKey (o : RawOption) : String :=
  match o.ItemResponseOID with
  | some s => s
  | none =>
    match o.ItemResponseOid with
    | some s => s
    | none =>
      match o.ItemResponseID with
      | some s => s
      | none =>
        match o.ItemResponseId with
        | some s => s
        | none =>
          match o.Description with
          | some s => s
          | none =>
            match o.Value with
            | some v => jsValDisplay v
            | none => ""

/-- One derived option of `extractOptions`: value (`Value ?? ''`), composed
label, derived order
(`typeof Value !== 'undefined' ? Number(Value) : Number(Order)`), response
key and display label. -/
def extractOption (o : RawOption) : OptionRec :=
  let value : JsVal := o.Value.getD (.str "")
  let labelBase := o.Description.getD ""
  let responseKey := firstKey o
  { value := value
  , label :=
      if jsValTruthy value then "(" ++ jsValDisplay value ++ ") " ++ labelBase
      else labelBase
  , order :=
      match o.Value with
      | some v => jsNumberVal v
      | none => jsNumberOpt o.Order
  , responseKey := responseKey
  , displayLabel := o.Description.getD (o.Label.getD responseKey) }

/-- Source function `extractOptions(item)`: the derived options of all elements' maps, in
document order. -/
def extractOptions (it : Item) : List OptionRec :=
  (it.Elements.map (fun e => e.Map.map extractOption)).flatten

/-- Source function `getOptionOrder(option)`: the derived `order` when it is a non-NaN
number, else `Number(option.value)` when non-NaN, else `MAX_SAFE_INTEGER`. -/
def getOptionOrder (r : OptionRec) : JsNum :=
  if r.order == .nan then
    match jsNumberVal r.value with
    | .nan => .fin maxSafeInteger
    | w => w
  else r.order

/-- Source function `compareOptionOrder(a, b)`: derived order first, ties by label
comparison. -/
def compareOptionOrder (a b : OptionRec) : Ordering :=
  let oa := getOptionOrder a
  let ob := getOptionOrder b
  if jsEq oa ob then compare a.label b.label
  else if jsLt oa ob then .lt else .gt

/-- The options of an item as the assessment question renders them:
extracted, then sorted by `compareOptionOrder`. -/
def sortedOptions (it : Item) : List OptionRec :=
  sortCmp compareOptionOrder (extractOptions it)

/-- The fixed set of known short-form identifiers
(`PAIN_INTERFERENCE_FORM_IDS`). -/
def painInterferenceFormIds : List String :=
  ["154D0273-C3F6-4BCE-8885-3194D4CC4596"]

/-- The all-zero GUID used as the skip sentinel (`GUID_EMPTY`). -/
def guidEmpty : String := "00000000-0000-0000-0000-000000000000"

/-- Source function `isPainInterferenceShortForm(form)`: a truthy OID in the known set, or a
lower-cased `Name ?? Title ?? ''` containing all three marker substrings. -/
def isPainInterferenceShortForm (f : Form) : Bool :=
  let oidHit :=
    match f.OID with
    | some o => !(o.data.isEmpty) && painInterferenceFormIds.contains o
    | none => false
  if oidHit then true
  else
    let nm := strLower (f.Name.getD (f.Title.getD ""))
    strIncludes nm "pain interference" && strIncludes nm "short form" &&
      strIncludes nm "pediatric"

/-- One candidate of `parseTScore`: a JSON number is accepted outright, a
string is accepted when its trimmed form is non-empty and `parseFloat`
yields non-NaN. -/
def tryCandidate : Option JsVal → Option JsNum
  | none => none
  | some (.num d) => some (.fin d)
  | some (.str s) =>
    if (trimChars s.data).isEmpty then none
    else
      match jsParseFloatStr s with
      | .nan => none
      | v => some v

/-- First accepted candidate. -/
def firstHit : List (Option JsNum) → Option JsNum
  | [] => none
  | some v :: _ => some v
  | none :: rest => firstHit rest

/-- Source function `parseTScore(payload)`: the candidates
`tScore, TScore, tscore, Score?.TScore, Score?.tScore, Results?.TScore,
Results?.tScore, Results?.Score`, in order; the first accepted one wins. -/
def parseTScore (p : Payload) : Option JsNum :=
  firstHit
    [tryCandidate p.tScore, tryCandidate p.TScore, tryCandidate p.tscore,
     tryCandidate (p.Score.bind (fun o => o.TScore)),
     tryCandidate (p.Score.bind (fun o => o.tScore)),
     tryCandidate (p.Results.bind (fun o => o.TScore)),
     tryCandidate (p.Results.bind (fun o => o.tScore)),
     tryCandidate (p.Results.bind (fun o => o.Score))]

/-- The derivation theta * 10 + 50 on a coercion result. -/
def thetaToTScore : JsNum → JsNum
  | .fin d => .fin ⟨d.mant * 10 + 50 * (10 : Int) ^ d.exp, d.exp⟩
  | .posInf => .posInf
  | .negInf => .negInf
  | .nan => .nan

/-- The `T Score:` line of `renderAssessmentResults`, when one is rendered:
inside the truthy-`Theta` branch a server score wins, else a non-NaN parsed
theta yields `(theta * 10 + 50).toFixed(1)`; outside it only a server score
is shown. -/
def renderTScoreLine (p : Payload) : Option String :=
  let serverT := parseTScore p
  if jsTruthyOpt p.Theta then
    let th :=
      match p.Theta with
      | some v => jsParseFloatVal v
      | none => JsNum.nan
    match serverT with
    | some t => some (jsToFixed 1 t)
    | none =>
      match th with
      | .nan => none
      | v => some (jsToFixed 1 (thetaToTScore v))
  else
    match serverT with
    | some t => some (jsToFixed 1 t)
    | none => none

/-- Assessment mode: `fixed` or `stateless` (adaptive). -/
inductive Mode where
  | fixed
  | stateless
deriving DecidableEq, Repr

/-- One submitted response: item identifier, selected response key (or the
skip sentinel), and its 1-based submission sequence number. -/
structure Response where
  ItemID : String
  ItemResponseOID : String
  Order : Nat
deriving DecidableEq, Repr

/-- One human-readable history entry, parallel to `responses`. -/
structure HistoryEntry where
  itemId : String
  question : String
  response : String
  skipped : Bool
deriving DecidableEq, Repr

/-- A per-form assessment session.  `sid` is a session identity tag standing
in for JS object identity (a fresh session object gets a fresh tag); `items`
and `currentIndex` are used in fixed mode, `currentItem` in stateless mode. -/
structure Session where
  sid : Nat := 0
  mode : Mode
  responses : List Response := []
  history : List HistoryEntry := []
  items : List Item := []
  currentIndex : Nat := 0
  currentItem : Option Item := none
  lastPayload : Option Payload := none
deriving DecidableEq, Repr

/-- The session store (`assessmentSessions`), keyed by form OID. -/
def Store := List (String × Session)
deriving DecidableEq

/-- Map lookup `assessmentSessions.get(oid)`. -/
def storeGet : Store → String → Option Session
  | [], _ => none
  | (k, s) :: rest, oid => if k = oid then some s else storeGet rest oid

/-- Map write `assessmentSessions.set(oid, s)` (in-place mutation of the stored
session object is modelled as replacing the entry). -/
def storeSet : Store → String → Session → Store
  | [], oid, s => [(oid, s)]
  | (k, s0) :: rest, oid, s =>
    if k = oid then (oid, s) :: rest else (k, s0) :: storeSet rest oid s

/-- Map removal `assessmentSessions.delete(oid)`. -/
def storeDelete : Store → String → Store
  | [], _ => []
  | (k, s0) :: rest, oid =>
    if k = oid then storeDelete rest oid else (k, s0) :: storeDelete rest oid

/-- The network calls the state machine can make. -/
inductive NetCall where
  | fetchNext
  | score
deriving DecidableEq, Repr

/-- What the UI layer is asked to render after a step. -/
inductive View where
  | noop
  | question (it : Item)
  | results (p : Payload) (hist : List HistoryEntry)
  | errorMsg (msg : String)
deriving DecidableEq, Repr

/-- The payload a results view renders from, if any. -/
def viewPayload : View → Option Payload
  | .results p _ => some p
  | _ => none

/-- Mutate the stored session only when the store still holds the very
session object the mutation targets (same identity tag); a mutation of a
detached session object does not reach the store. -/
def storeUpdateIfSame (st : Store) (oid : String) (sid : Nat)
    (f : Session → Session) : Store :=
  match storeGet st oid with
  | some s => if s.sid = sid then storeSet st oid (f s) else st
  | none => st

/-- The arrival phase of `loadNextAssessmentItem`, applied when the
`fetchStatelessAssessment` promise settles: `captured` is the session looked
up before the request was issued, `st` the store at arrival time.  Non-empty
items: record payload and current item, render the question.  Empty items:
record payload, render results from the captured session, then delete the
store entry under the form OID.  Failure: restore the snapshot into the
captured session when one was given. -/
def loadNextArrival (oid : String) (captured : Session) (st : Store)
    (rollback : Option (List Response × List HistoryEntry))
    (net : Except String Payload) : Store × View :=
  match net with
  | .ok p =>
    match p.Items with
    | [] =>
      (storeDelete
        (storeUpdateIfSame st oid captured.sid (fun s => { s with lastPayload := some p }))
        oid,
       .results p captured.history)
    | it :: _ =>
      (storeUpdateIfSame st oid captured.sid
        (fun s => { s with lastPayload := some p, currentItem := some it }),
       .question it)
  | .error e =>
    match rollback with
    | some (rs, hs) =>
      (storeUpdateIfSame st oid captured.sid
        (fun s => { s with responses := rs, history := hs }),
       .errorMsg e)
    | none => (st, .errorMsg e)

/-- Source function `loadNextAssessmentItem` when nothing touches the store between the
session lookup and the arrival of the network result (the sequential case):
absent session short-circuits, otherwise the arrival phase runs on the
looked-up session, with `net` the settled result of the fetch. -/
def loadNextSync (st : Store) (oid : String)
    (rollback : Option (List Response × List HistoryEntry))
    (net : Except String Payload) : Store × View :=
  match storeGet st oid with
  | none => (st, .noop)
  | some s => loadNextArrival oid s st rollback net

/-- Source function `completeFixedAssessment`: score the accumulated responses; on success
record the payload, render results and delete the session; on failure leave
the session untouched and surface the error. -/
def completeFixed (st : Store) (oid : String) (s : Session)
    (net : Except String Payload) : Store × View × List NetCall :=
  match net with
  | .ok p =>
    (storeDelete (storeSet st oid { s with lastPayload := some p }) oid,
     .results p s.history, [NetCall.score])
  | .error e => (st, .errorMsg e, [NetCall.score])

/-- The submit handler of `renderAssessmentQuestion`: append a response with
sequence number `len(responses) + 1` and a parallel history entry; stateless
mode snapshots the prior lists and performs the fetch round trip; fixed mode
advances the cursor and, at the end of the item list, scores.  `selKey` and
`selLabel` are the selected option's response key and display label; `net`
is the settled result of whichever network call the step performs. -/
def submitAnswer (st : Store) (oid : String) (selKey selLabel : String)
    (net : Except String Payload) : Store × View × List NetCall :=
  match storeGet st oid with
  | none => (st, .noop, [])
  | some s =>
    let item? :=
      match s.mode with
      | .stateless => s.currentItem
      | .fixed => s.items.get? s.currentIndex
    match item? with
    | none => (st, .noop, [])
    | some item =>
      let rollback :=
        match s.mode with
        | .stateless => some (s.responses, s.history)
        | .fixed => none
      let entry : Response :=
        { ItemID := item.ID.getD ""
        , ItemResponseOID := selKey
        , Order := s.responses.length + 1 }
      let hentry : HistoryEntry :=
        { itemId := item.ID.getD ""
        , question := extractQuestionText item
        , response := if selLabel.data.isEmpty then selKey else selLabel
        , skipped := false }
      let s1 := { s with responses := s.responses ++ [entry]
                       , history := s.history ++ [hentry] }
      let st1 := storeSet st oid s1
      match s.mode with
      | .stateless =>
        let r := loadNextSync st1 oid rollback net
        (r.1, r.2, [NetCall.fetchNext])
      | .fixed =>
        let s2 := { s1 with currentIndex := s1.currentIndex + 1 }
        let st2 := storeSet st1 oid s2
        if h : s2.currentIndex < s2.items.length then
          (st2, .question (s2.items.get ⟨s2.currentIndex, h⟩), [])
        else completeFixed st2 oid s2 net

/-- The skip handler of `renderAssessmentQuestion`: only rendered for
stateless sessions (`allowSkip`); appends the skip sentinel response and a
`skipped` history entry, then performs the fetch round trip with a rollback
snapshot. -/
def skipItem (st : Store) (oid : String)
    (net : Except String Payload) : Store × View × List NetCall :=
  match storeGet st oid with
  | none => (st, .noop, [])
  | some s =>
    match s.mode with
    | .fixed => (st, .noop, [])
    | .stateless =>
      match s.currentItem with
      | none => (st, .noop, [])
      | some item =>
        let rollback := some (s.responses, s.history)
        let entry : Response :=
          { ItemID := item.ID.getD ""
          , ItemResponseOID := guidEmpty
          , Order := s.responses.length + 1 }
        let hentry : HistoryEntry :=
          { itemId := item.ID.getD ""
          , question := extractQuestionText item
          , response := "Skipped"
          , skipped := true }
        let s1 := { s with responses := s.responses ++ [entry]
                         , history := s.history ++ [hentry] }
        let st1 := storeSet st oid s1
        let r := loadNextSync st1 oid rollback net
        (r.1, r.2, [NetCall.fetchNext])

/-- The stateless branch of `startPromisAssessment`: register a fresh
adaptive session, then fetch the opening question. -/
def startAdaptive (st : Store) (oid : String) (sid : Nat)
    (net : Except String Payload) : Store × View × List NetCall :=
  let s : Session := { sid := sid, mode := .stateless }
  let st1 := storeSet st oid s
  let r := loadNextSync st1 oid none net
  (r.1, r.2, [NetCall.fetchNext])

/-- The short-form branch of `startPromisAssessment`: order the detail
items; with a non-empty list register a fresh fixed session and present the
first item. -/
def startFixed (st : Store) (oid : String) (sid : Nat)
    (details : Payload) : Store × View :=
  let items := getOrderedItems details
  match items with
  | [] => (st, .errorMsg "No items available for this form.")
  | it :: _ =>
    let s : Session := { sid := sid, mode := .fixed, items := items }
    (storeSet st oid s, .question it)

/-- A rendered card of the forms list. -/
structure FormCard where
  title : String
  oid : Option String
deriving DecidableEq, Repr

/-- Source function `renderPromisForms(forms)`: clears the whole session store
(`assessmentSessions.clear()`), then renders one card per form
(`form.Name ?? form.Title ?? 'Untitled Form'`). -/
def renderPromisForms (_st : Store) (forms : List Form) : Store × List FormCard :=
  ([],
   forms.map (fun f =>
     { title := f.Name.getD (f.Title.getD "Untitled Form"), oid := f.OID }))

/-- The sequence numbers of a response list are exactly `1, 2, ..., n`. -/
def ordersOk (rs : List Response) : Prop :=
  rs.map (fun r => r.Order) = List.range' 1 rs.length

/-- The session invariant: parallel lists of equal length, gapless 1-based
sequence numbers. -/
def goodSession (s : Session) : Prop :=
  s.responses.length = s.history.length ∧ ordersOk s.responses

/-- Every session in the store satisfies the invariant. -/
def storeGood (st : Store) : Prop :=
  ∀ oid s, storeGet st oid = some s → goodSession s

theorem storeGet_set (st : Store) (oid oid' : String) (s : Session) :
    storeGet (storeSet st oid s) oid' =
      if oid = oid' then some s else storeGet st oid' := by
  induction st with
  | nil => by_cases h : oid = oid' <;> simp [storeSet, storeGet, h]
  | cons hd tl ih =>
    obtain ⟨k, s0⟩ := hd
    by_cases hk : k = oid
    · subst hk
      by_cases h : k = oid' <;> simp [storeSet, storeGet, h]
    · by_cases h : k = oid'
      · subst h
        have : ¬oid = k := fun hh => hk hh.symm
        simp [storeSet, storeGet, hk, this]
      · simp [storeSet, storeGet, hk, h, ih]

theorem storeGet_set_self (st : Store) (oid : String) (s : Session) :
    storeGet (storeSet st oid s) oid = some s := by
  simp [storeGet_set]

theorem storeGet_delete (st : Store) (oid oid' : String) :
    storeGet (storeDelete st oid) oid' =
      if oid = oid' then none else storeGet st oid' := by
  induction st with
  | nil => by_cases h : oid = oid' <;> simp [storeDelete, storeGet, h]
  | cons hd tl ih =>
    obtain ⟨k, s0⟩ := hd
    by_cases hk : k = oid
    · subst hk
      by_cases h : k = oid'
      · subst h
        simp only [storeDelete, if_pos rfl]
        simpa using ih
      · simp [storeDelete, storeGet, h, ih]
    · by_cases h : k = oid'
      · subst h
        have : ¬oid = k := fun hh => hk hh.symm
        simp [storeDelete, storeGet, hk, this]
      · simp [storeDelete, storeGet, hk, h, ih]

theorem storeGet_delete_self (st : Store) (oid : String) :
    storeGet (storeDelete st oid) oid = none := by
  simp [storeGet_delete]

theorem storeUpdateIfSame_of_get (st : Store) (oid : String) (s : Session)
    (f : Session → Session) (h : storeGet st oid = some s) :
    storeUpdateIfSame st oid s.sid f = storeSet st oid (f s) := by
  unfold storeUpdateIfSame
  rw [h]
  simp

theorem storeGood_set (st : Store) (oid : String) (s : Session)
    (h : storeGood st) (hg : goodSession s) : storeGood (storeSet st oid s) := by
  intro oid' s' h'
  rw [storeGet_set] at h'
  by_cases he : oid = oid'
  · rw [if_pos he] at h'
    cases h'
    exact hg
  · rw [if_neg he] at h'
    exact h oid' s' h'

theorem storeGood_delete (st : Store) (oid : String)
    (h : storeGood st) : storeGood (storeDelete st oid) := by
  intro oid' s' h'
  rw [storeGet_delete] at h'
  by_cases he : oid = oid'
  · rw [if_pos he] at h'
    cases h'
  · rw [if_neg he] at h'
    exact h oid' s' h'

/-- Example item of the ordering scenario: no order field, identifier Q2. -/
def itemQ2 : Item := { ID := some "Q2" }

/-- Example item: identifier Q10, explicit order 1. -/
def itemQ10 : Item := { ID := some "Q10", Order := some (.num ⟨1, 0⟩) }

/-- Example item: identifier Q1, explicit order 2. -/
def itemQ1 : Item := { ID := some "Q1", Order := some (.num ⟨2, 0⟩) }

/-- Example option with value 3. -/
def optV3 : RawOption := { Value := some (.str "3"), Description := some "Sometimes" }

/-- Example option with value 1. -/
def optV1 : RawOption := { Value := some (.str "1"), Description := some "Never" }

/-- Example option with value 2. -/
def optV2 : RawOption := { Value := some (.str "2"), Description := some "Rarely" }

/-- Example item carrying the options with values 3, 1, 2. -/
def itemOpt312 : Item :=
  { ID := some "X1", Elements := [{ Map := [optV3, optV1, optV2] }] }

/-- Option with both a value (5) and an explicit order field (1). -/
def optA : RawOption :=
  { Value := some (.str "5"), Order := some (.num ⟨1, 0⟩), Description := some "a" }

/-- Option with no value and an explicit order field (2). -/
def optB : RawOption := { Order := some (.num ⟨2, 0⟩), Description := some "b" }

/-- Option with neither a value nor an order field. -/
def optC : RawOption := { Description := some "c" }

/-- Example item carrying the three options above. -/
def itemABC : Item := { ID := some "X2", Elements := [{ Map := [optA, optB, optC] }] }

/-- Payload with a nested server score `{Score: {TScore: 42}}`. -/
def payload42 : Payload := { Score := some { TScore := some (.num ⟨42, 0⟩) } }

/-- Payload whose top-level `tScore` is the string `"Infinity"` while the
nested `Score.TScore` is 42. -/
def payloadInf : Payload :=
  { tScore := some (.str "Infinity")
  , Score := some { TScore := some (.num ⟨42, 0⟩) } }

/-- Terminal payload `{Theta: "1.5"}`. -/
def payloadTheta15 : Payload := { Theta := some (.str "1.5") }

/-- Terminal payload `{Theta: "1.494996"}`. -/
def payloadThetaR : Payload := { Theta := some (.str "1.494996") }

/-- Terminal payload `{Theta: 0}` (a JSON number zero). -/
def payloadThetaZero : Payload := { Theta := some (.num ⟨0, 0⟩) }

/-- C10: Reloading the forms list clears the entire assessment session
store: after `renderPromisForms`, no form identifier has a session any
longer, whatever sessions (including non-terminal ones) were open before. -/
theorem renderPromisForms_clears_store :
    ∀ (st : Store) (forms : List Form) (oid : String),
      storeGet (renderPromisForms st forms).1 oid = none := by
  intro st forms oid
  rfl

/-- C8: the fixed/short-form classifier is true exactly when the OID is in
the known fixed set or the lower-cased name/title contains all three marker
substrings; with the three concrete examples of the specification. -/
theorem isPainInterferenceShortForm_spec :
    (∀ f : Form,
      isPainInterferenceShortForm f = true ↔
        ((∃ o, f.OID = some o ∧ painInterferenceFormIds.contains o = true) ∨
         (strIncludes (strLower (f.Name.getD (f.Title.getD ""))) "pain interference" = true ∧
          strIncludes (strLower (f.Name.getD (f.Title.getD ""))) "short form" = true ∧
          strIncludes (strLower (f.Name.getD (f.Title.getD ""))) "pediatric" = true)))
    ∧ isPainInterferenceShortForm
        { OID := some "154D0273-C3F6-4BCE-8885-3194D4CC4596" } = true
    ∧ isPainInterferenceShortForm
        { Name := some "Pediatric Pain Interference Short Form 8a" } = true
    ∧ isPainInterferenceShortForm
        { Name := some "Adult Physical Function" } = false := by
  refine ⟨?_, by decide, by decide, by decide⟩
  intro f
  unfold isPainInterferenceShortForm
  cases hO : f.OID with
  | none => simp [and_assoc]
  | some o =>
    by_cases hc : painInterferenceFormIds.contains o = true
    · have hel : painInterferenceFormIds.elem o = true := hc
      have ho : o = "154D0273-C3F6-4BCE-8885-3194D4CC4596" := by
        have := List.elem_iff.mp hel
        simpa [painInterferenceFormIds] using this
      subst ho
      simp [hc, and_assoc]
    · have hcf : painInterferenceFormIds.contains o = false := by
        cases hcb : painInterferenceFormIds.contains o
        · rfl
        · exact absurd hcb hc
      have hnm : o ∉ painInterferenceFormIds := by
        intro hm
        have hel : painInterferenceFormIds.elem o = true := List.elem_iff.mpr hm
        rw [show painInterferenceFormIds.elem o = painInterferenceFormIds.contains o from rfl,
            hcf] at hel
        cases hel
      simp [hcf, hnm, and_assoc]

theorem jsLt_not_jsEq (x y : JsNum) (h : jsLt x y = true) : jsEq x y = false := by
  cases x with
  | fin a =>
    cases y with
    | fin b =>
      simp only [jsLt, decLt, decide_eq_true_eq] at h
      simp only [jsEq, decEqv, beq_eq_false_iff_ne, ne_eq]
      exact Int.ne_of_lt h
    | posInf => rfl
    | negInf => simp [jsLt] at h
    | nan => simp [jsLt] at h
  | posInf => cases y <;> simp [jsLt] at h
  | negInf =>
    cases y with
    | fin b => rfl
    | posInf => rfl
    | negInf => simp [jsLt] at h
    | nan => simp [jsLt] at h
  | nan => cases y <;> simp [jsLt] at h

/-- Item with only the first-choice explicit order field set. -/
def itemIO7 : Item := { ItemOrder := some (.num ⟨7, 0⟩) }

/-- Item with no order information at all. -/
def itemBare : Item := { }

/-- C4: the normaliser's item order — the concrete example
`[{ID:"Q2"}, {ID:"Q10", Order:1}, {ID:"Q1", Order:2}]` sorts to
`[Q10, Q1, Q2]`; the comparator orders by the derived numeric key and breaks
key ties by identifier comparison; a present numeric first-choice order
field is the key; an item with no numeric order field anywhere and no digit
run in its identifier keys to `MAX_SAFE_INTEGER`, hence sorts last. -/
theorem item_ordering_spec (a b : Item) (q : Dec) :
    sortCmp compareItems [itemQ2, itemQ10, itemQ1] = [itemQ10, itemQ1, itemQ2]
    ∧ (jsLt (getItemOrder a) (getItemOrder b) = true →
        compareItems a b = Ordering.lt)
    ∧ (jsEq (getItemOrder a) (getItemOrder b) = true →
        compareItems a b = compare (idString a) (idString b))
    ∧ (a.ItemOrder = some (JsVal.num q) → getItemOrder a = JsNum.fin q)
    ∧ (a.ItemOrder = none → a.Order = none → a.Sequence = none →
        a.QuestionNumber = none → a.ItemPosition = none → a.Position = none →
        extractLeadingNumber a.ID = none →
        getItemOrder a = JsNum.fin maxSafeInteger) := by
  refine ⟨by decide, ?_, ?_, ?_, ?_⟩
  · intro h
    simp only [compareItems]
    rw [jsLt_not_jsEq _ _ h, h]
    rfl
  · intro h
    simp only [compareItems]
    rw [h]
    rfl
  · intro h
    simp [getItemOrder, h, jsNumberOpt, jsNumberVal, pickFirstNum]
  · intro h1 h2 h3 h4 h5 h6 h7
    simp [getItemOrder, h1, h2, h3, h4, h5, h6, h7, jsNumberOpt, pickFirstNum]

/-- Witness for C4 at concrete items: key 1 sorts before key 2; equal keys
(2 and 2) fall back to the identifier comparison; an explicit `ItemOrder` 7
is the key; the bare item keys to `MAX_SAFE_INTEGER`. -/
theorem item_ordering_spec_witness :
    compareItems itemQ10 itemQ1 = Ordering.lt
    ∧ compareItems itemQ1 itemQ2 = compare (idString itemQ1) (idString itemQ2)
    ∧ getItemOrder itemIO7 = JsNum.fin ⟨7, 0⟩
    ∧ getItemOrder itemBare = JsNum.fin maxSafeInteger := by
  refine ⟨(item_ordering_spec itemQ10 itemQ1 ⟨7, 0⟩).2.1 (by decide),
          (item_ordering_spec itemQ1 itemQ2 ⟨7, 0⟩).2.2.1 (by decide),
          (item_ordering_spec itemIO7 itemQ1 ⟨7, 0⟩).2.2.2.1 rfl,
          (item_ordering_spec itemBare itemQ1 ⟨7, 0⟩).2.2.2.2 rfl rfl rfl rfl rfl rfl rfl⟩

/-- The option ordering key exactly as claim C5 words it: the value key —
the parsed numeric value when it parses, else sorts last
(`MAX_SAFE_INTEGER`). -/
def claimValueKey (o : RawOption) : JsNum :=
  match o.Value with
  | some v =>
    match jsNumberVal v with
    | .nan => .fin maxSafeInteger
    | w => w
  | none => .fin maxSafeInteger

/-- The option ordering key exactly as claim C5 words it: the explicit
numeric order field when present, else the parsed numeric value, else sorts
last. -/
def claimOptionKey (o : RawOption) : JsNum :=
  match o.Order with
  | some v =>
    match jsNumberVal v with
    | .nan => claimValueKey o
    | w => w
  | none => claimValueKey o

/-- Comparator induced by the claimed option key, ties by label. -/
def claimCompareOption (a b : RawOption) : Ordering :=
  if jsEq (claimOptionKey a) (claimOptionKey b) then
    compare (a.Description.getD "") (b.Description.getD "")
  else if jsLt (claimOptionKey a) (claimOptionKey b) then .lt else .gt

/-- C5 counterexample: for the option list
`[{Value:"5", Order:1}, {Order:2}, {}]` the code derives orders `5, 2, 0`
(the value wins over the explicit order field, and the optionless entry gets
`Number('') = 0`), sorting it as `[{}, {Order:2}, {Value:"5", Order:1}]`;
the claimed key (explicit order field first, no value sorts last) derives
`1, 2, MAX_SAFE_INTEGER` and predicts the reverse arrangement. -/
theorem option_ordering_counterexample :
    (sortedOptions itemABC).map (fun r => r.label) = ["c", "b", "(5) a"]
    ∧ sortCmp claimCompareOption [optA, optB, optC] = [optA, optB, optC]
    ∧ getOptionOrder (extractOption optA) = JsNum.fin ⟨5, 0⟩
    ∧ claimOptionKey optA = JsNum.fin ⟨1, 0⟩
    ∧ getOptionOrder (extractOption optC) = JsNum.fin ⟨0, 0⟩
    ∧ claimOptionKey optC = JsNum.fin maxSafeInteger := by decide

/-- C5 (amended): each option's derived numeric order comes from the numeric
interpretation of the value field when a value field is present (a
non-numerically-parsing value sorts last); only when the value field is
absent is the explicit order field consulted, and if that is missing or
non-numeric the order is 0 (the absent value is kept as the empty string,
which `Number` converts to 0), so such options sort before positive-valued
options rather than last; ties are broken by lexicographic label
comparison; options with values "3", "1", "2" sort value-ascending. -/
theorem option_ordering_amended (o : RawOption) (a b : OptionRec) :
    (getOptionOrder (extractOption o) =
      match o.Value with
      | some v =>
        (match jsNumberVal v with
         | .nan => JsNum.fin maxSafeInteger
         | w => w)
      | none =>
        (match jsNumberOpt o.Order with
         | .nan => JsNum.fin ⟨0, 0⟩
         | w => w))
    ∧ (jsEq (getOptionOrder a) (getOptionOrder b) = true →
        compareOptionOrder a b = compare a.label b.label)
    ∧ (jsLt (getOptionOrder a) (getOptionOrder b) = true →
        compareOptionOrder a b = Ordering.lt)
    ∧ (sortedOptions itemOpt312).map (fun r => r.label) =
        ["(1) Never", "(2) Rarely", "(3) Sometimes"] := by
  refine ⟨?_, ?_, ?_, by decide⟩
  · cases hv : o.Value with
    | some v =>
      cases hn : jsNumberVal v with
      | nan => simp [extractOption, getOptionOrder, hv, hn]
      | fin d => simp [extractOption, getOptionOrder, hv, hn]
      | posInf => simp [extractOption, getOptionOrder, hv, hn]
      | negInf => simp [extractOption, getOptionOrder, hv, hn]
    | none =>
      cases hn : jsNumberOpt o.Order with
      | nan =>
        simp [extractOption, getOptionOrder, hv, hn, jsNumberVal, jsNumberStr,
          trimChars]
      | fin d => simp [extractOption, getOptionOrder, hv, hn]
      | posInf => simp [extractOption, getOptionOrder, hv, hn]
      | negInf => simp [extractOption, getOptionOrder, hv, hn]
  · intro h
    simp only [compareOptionOrder]
    rw [h]
    rfl
  · intro h
    simp only [compareOptionOrder]
    rw [jsLt_not_jsEq _ _ h, h]
    rfl

/-- Witness for the amended C5 at concrete options: the no-value no-order
option derives key 0; equal keys fall back to the label comparison; key 1
sorts before key 2. -/
theorem option_ordering_amended_witness :
    getOptionOrder (extractOption optC) = JsNum.fin ⟨0, 0⟩
    ∧ compareOptionOrder (extractOption optV1) (extractOption optV1) =
        compare (extractOption optV1).label (extractOption optV1).label
    ∧ compareOptionOrder (extractOption optV1) (extractOption optV2) =
        Ordering.lt := by
  refine ⟨?_, (option_ordering_amended optC (extractOption optV1)
                (extractOption optV1)).2.1 (by decide),
          (option_ordering_amended optC (extractOption optV1)
            (extractOption optV2)).2.2.1 (by decide)⟩
  have h := (option_ordering_amended optC (extractOption optV1)
    (extractOption optV1)).1
  simpa using h

/-- The candidate accessor chain of the score deriver, in its fixed
priority order. -/
def scoreCandidates : List (Payload → Option JsVal) :=
  [fun p => p.tScore, fun p => p.TScore, fun p => p.tscore,
   fun p => p.Score.bind (fun o => o.TScore),
   fun p => p.Score.bind (fun o => o.tScore),
   fun p => p.Results.bind (fun o => o.TScore),
   fun p => p.Results.bind (fun o => o.tScore),
   fun p => p.Results.bind (fun o => o.Score)]

/-- Acceptance exactly as claim C6 words it: the candidate must parse to a
finite number (numeric or non-blank numeric-string). -/
def claimFiniteAccept : Option JsVal → Option Dec
  | none => none
  | some (.num d) => some d
  | some (.str s) =>
    if (trimChars s.data).isEmpty then none
    else
      match jsParseFloatStr s with
      | .fin d => some d
      | _ => none

/-- The score deriver as claim C6 words it: first candidate that parses to
a finite number. -/
def claimParseTScoreFinite (p : Payload) : Option Dec :=
  (scoreCandidates.map (fun g => claimFiniteAccept (g p))).findSome? id

/-- The score deriver as the code has it, refactored over the candidate
chain: first candidate whose parse is non-NaN (an infinity is accepted). -/
def claimParseTScoreNonNaN (p : Payload) : Option JsNum :=
  (scoreCandidates.map (fun g => tryCandidate (g p))).findSome? id

/-- C6 counterexample: on `{tScore: "Infinity", Score: {TScore: 42}}` the
code returns positive infinity (the string "Infinity" passes the non-NaN
check), while the first candidate that parses to a FINITE number is the
nested 42. -/
theorem parseTScore_counterexample :
    parseTScore payloadInf = some JsNum.posInf
    ∧ claimParseTScoreFinite payloadInf = some ⟨42, 0⟩
    ∧ parseTScore payloadInf ≠
        (claimParseTScoreFinite payloadInf).map JsNum.fin := by decide

/-- C6 (amended): the score deriver tries the fixed candidate chain in
order and returns the first candidate whose parse is non-NaN (numeric or
numeric-string; finiteness is not checked, so a string "Infinity" is
accepted); `{Score: {TScore: 42}}` yields 42 whatever `Theta` holds. -/
theorem parseTScore_amended :
    (∀ p : Payload, parseTScore p = claimParseTScoreNonNaN p)
    ∧ (∀ th : Option JsVal,
        parseTScore { payload42 with Theta := th } = some (JsNum.fin ⟨42, 0⟩))
    ∧ parseTScore payloadInf = some JsNum.posInf := by
  refine ⟨?_, ?_, by decide⟩
  · intro p
    simp only [parseTScore, claimParseTScoreNonNaN, scoreCandidates, List.map_cons,
      List.map_nil, List.findSome?_cons, List.findSome?_nil, id_eq]
    cases tryCandidate p.tScore <;>
      cases tryCandidate p.TScore <;>
      cases tryCandidate p.tscore <;>
      cases tryCandidate (p.Score.bind fun o => o.TScore) <;>
      cases tryCandidate (p.Score.bind fun o => o.tScore) <;>
      cases tryCandidate (p.Results.bind fun o => o.TScore) <;>
      cases tryCandidate (p.Results.bind fun o => o.tScore) <;>
      cases tryCandidate (p.Results.bind fun o => o.Score) <;>
      simp [firstHit]
  · intro th
    rfl

/-- Round a decimal to 4 decimal digits, half up. -/
def round4 (d : Dec) : Dec := ⟨roundHalfUpScaled d 4, 4⟩

/-- The display rule exactly as claim C7 words it: with a numeric theta and
no server-supplied score, display `theta * 10 + 50`, rounded to 4 decimal
digits when derived, formatted to 1 decimal digit. -/
def claimC7Display (p : Payload) : Option String :=
  match p.Theta with
  | none => none
  | some v =>
    match jsParseFloatVal v with
    | .fin th =>
      if (parseTScore p).isSome then none
      else some (decToFixed 1 (round4 ⟨th.mant * 10 + 50 * (10 : Int) ^ th.exp, th.exp⟩))
    | _ => none

/-- C7 counterexample: on `{Theta: "1.494996"}` the code displays `64.9`
(no intermediate rounding: 64.94996 fixed to 1 decimal), while rounding to
4 decimals first (64.9500) and then to 1 yields `65.0`; and on
`{Theta: 0}` (a numeric theta) the code displays no T-score at all, because
`if (payload?.Theta)` treats the number 0 as falsy, while the claim demands
`50.0`. -/
theorem tScore_display_counterexample :
    renderTScoreLine payloadThetaR = some "64.9"
    ∧ claimC7Display payloadThetaR = some "65.0"
    ∧ renderTScoreLine payloadThetaZero = none
    ∧ claimC7Display payloadThetaZero = some "50.0" := by decide

/-- C7 (amended): for every terminal payload whose theta field is truthy
(non-zero number or non-empty string) and parses to a number, with no
server-supplied standardized score, the displayed T-score is
`theta * 10 + 50` formatted to 1 decimal digit, with no intermediate
rounding of the T-score (theta itself is separately displayed to 4 decimal
digits); for `{Theta: "1.5"}` the derived value is 65, displayed `65.0`. -/
theorem tScore_display_amended (p : Payload) (v : JsVal) (th : Dec)
    (hv : p.Theta = some v) (htr : jsValTruthy v = true)
    (hp : jsParseFloatVal v = JsNum.fin th) (hns : parseTScore p = none) :
    renderTScoreLine p =
      some (decToFixed 1 ⟨th.mant * 10 + 50 * (10 : Int) ^ th.exp, th.exp⟩) := by
  simp [renderTScoreLine, hv, jsTruthyOpt, htr, hns, hp, thetaToTScore, jsToFixed]

/-- Witness for the amended C7: applied at `{Theta: "1.5"}`, the display is
`65.0`. -/
theorem tScore_display_amended_witness :
    renderTScoreLine payloadTheta15 = some "65.0" := by
  rw [tScore_display_amended payloadTheta15 (JsVal.str "1.5") ⟨15, 1⟩ rfl
    (by decide) (by decide) (by decide)]
  decide

/-- An adaptive session as captured when a fetch was issued (identity 1),
one answer in. -/
def staleSession : Session :=
  { sid := 1
  , mode := .stateless
  , responses := [{ ItemID := "Q1", ItemResponseOID := "R1", Order := 1 }]
  , history := [{ itemId := "Q1", question := "How often?", response := "Never"
                , skipped := false }]
  , currentItem := some itemQ1 }

/-- A replacement session registered for the same form while that fetch was
in flight (identity 2, fresh lists). -/
def freshSession : Session := { sid := 2, mode := .stateless }

/-- The store at arrival time: the captured session has been replaced. -/
def replacedStore : Store := [("F1", freshSession)]

/-- A terminal (empty-items) payload. -/
def terminalPayload : Payload := { Theta := some (.str "1.5") }

/-- C9: evaluation of the arrival phase at the failing input — the captured
session was replaced in the store while the fetch was in flight, yet the
arriving terminal result is still applied: the results view is rendered
from the stale session and the store entry (the replacement session) is
deleted, so the arrival is not a no-op. -/
theorem staleArrival_not_noop :
    storeGet replacedStore "F1" = some freshSession
    ∧ loadNextArrival "F1" staleSession replacedStore none
        (Except.ok terminalPayload)
      = ([], View.results terminalPayload staleSession.history)
    ∧ (loadNextArrival "F1" staleSession replacedStore none
        (Except.ok terminalPayload)).1 ≠ replacedStore := by decide

theorem loadNextSync_error_rollback (st : Store) (oid : String) (s1 : Session)
    (rs : List Response) (hl : List HistoryEntry) (e : String)
    (hs : storeGet st oid = some s1) :
    loadNextSync st oid (some (rs, hl)) (Except.error e)
      = (storeSet st oid { s1 with responses := rs, history := hl },
         View.errorMsg e) := by
  simp only [loadNextSync, loadNextArrival, hs,
    storeUpdateIfSame_of_get st oid s1]

/-- C1: a failed adaptive submit or skip (the fetch throws) leaves the
session in the store unchanged — the very same session record, hence the
same `responses`, the same `history` and the same current question — and
surfaces the error. -/
theorem submit_skip_failure_rollback (st : Store) (oid : String) (s : Session)
    (it : Item) (k l e : String)
    (hs : storeGet st oid = some s) (hm : s.mode = Mode.stateless)
    (hci : s.currentItem = some it) :
    storeGet (submitAnswer st oid k l (Except.error e)).1 oid = some s
    ∧ (submitAnswer st oid k l (Except.error e)).2.1 = View.errorMsg e
    ∧ storeGet (skipItem st oid (Except.error e)).1 oid = some s
    ∧ (skipItem st oid (Except.error e)).2.1 = View.errorMsg e := by
  refine ⟨?_, ?_, ?_, ?_⟩
  · simp only [submitAnswer, hs, hm, hci]
    rw [loadNextSync_error_rollback _ _ _ _ _ _ (storeGet_set_self _ _ _)]
    rw [storeGet_set_self]
    cases s
    subst hm
    subst hci
    rfl
  · simp only [submitAnswer, hs, hm, hci]
    rw [loadNextSync_error_rollback _ _ _ _ _ _ (storeGet_set_self _ _ _)]
  · simp only [skipItem, hs, hm, hci]
    rw [loadNextSync_error_rollback _ _ _ _ _ _ (storeGet_set_self _ _ _)]
    rw [storeGet_set_self]
    cases s
    subst hm
    subst hci
    rfl
  · simp only [skipItem, hs, hm, hci]
    rw [loadNextSync_error_rollback _ _ _ _ _ _ (storeGet_set_self _ _ _)]

/-- An adaptive session awaiting `itemQ1`, as the witnesses use it. -/
def adaptSession : Session :=
  { sid := 1, mode := .stateless, currentItem := some itemQ1 }

/-- A one-session store holding `adaptSession` under form `F1`. -/
def demoStore : Store := [("F1", adaptSession)]

/-- Witness for C1: a concrete failed submit and a concrete failed skip
leave the concrete store unchanged and surface the error. -/
theorem submit_skip_failure_rollback_witness :
    storeGet (submitAnswer demoStore "F1" "R1" "Never"
        (Except.error "boom")).1 "F1" = some adaptSession
    ∧ (submitAnswer demoStore "F1" "R1" "Never"
        (Except.error "boom")).2.1 = View.errorMsg "boom"
    ∧ storeGet (skipItem demoStore "F1" (Except.error "boom")).1 "F1"
        = some adaptSession
    ∧ (skipItem demoStore "F1" (Except.error "boom")).2.1
        = View.errorMsg "boom" :=
  submit_skip_failure_rollback demoStore "F1" adaptSession itemQ1 "R1" "Never"
    "boom" (by decide) rfl rfl

theorem loadNextSync_terminal (st : Store) (oid : String) (s1 : Session)
    (rb : Option (List Response × List HistoryEntry)) (p : Payload)
    (hs : storeGet st oid = some s1) (hp : p.Items = []) :
    loadNextSync st oid rb (Except.ok p)
      = (storeDelete (storeSet st oid { s1 with lastPayload := some p }) oid,
         View.results p s1.history) := by
  simp only [loadNextSync, loadNextArrival, hs, hp,
    storeUpdateIfSame_of_get st oid s1]

theorem loadNextSync_question (st : Store) (oid : String) (s1 : Session)
    (rb : Option (List Response × List HistoryEntry)) (p : Payload)
    (it : Item) (rest : List Item)
    (hs : storeGet st oid = some s1) (hp : p.Items = it :: rest) :
    loadNextSync st oid rb (Except.ok p)
      = (storeSet st oid
           { s1 with lastPayload := some p, currentItem := some it },
         View.question it) := by
  simp only [loadNextSync, loadNextArrival, hs, hp,
    storeUpdateIfSame_of_get st oid s1]

/-- C3: in adaptive mode an empty-items payload is itself the terminal
score payload — the submit performs only the fetch call (the scoring call
is never made), the results view renders from that very payload, and the
session is deleted from the store; the fetch round trip behaves the same
whatever rollback snapshot it carries. -/
theorem adaptive_terminal_scoring (st : Store) (oid : String) (s : Session)
    (it : Item) (k l : String) (p : Payload)
    (hs : storeGet st oid = some s) (hm : s.mode = Mode.stateless)
    (hci : s.currentItem = some it) (hp : p.Items = []) :
    (submitAnswer st oid k l (Except.ok p)).2.2 = [NetCall.fetchNext]
    ∧ viewPayload (submitAnswer st oid k l (Except.ok p)).2.1 = some p
    ∧ storeGet (submitAnswer st oid k l (Except.ok p)).1 oid = none
    ∧ ∀ rb, viewPayload (loadNextSync st oid rb (Except.ok p)).2 = some p
        ∧ storeGet (loadNextSync st oid rb (Except.ok p)).1 oid = none := by
  refine ⟨?_, ?_, ?_, ?_⟩
  · simp only [submitAnswer, hs, hm, hci]
  · simp only [submitAnswer, hs, hm, hci]
    rw [loadNextSync_terminal _ _ _ _ _ (storeGet_set_self _ _ _) hp]
    rfl
  · simp only [submitAnswer, hs, hm, hci]
    rw [loadNextSync_terminal _ _ _ _ _ (storeGet_set_self _ _ _) hp]
    exact storeGet_delete_self _ _
  · intro rb
    rw [loadNextSync_terminal _ _ _ _ _ hs hp]
    exact ⟨rfl, storeGet_delete_self _ _⟩

/-- Witness for C3: a concrete adaptive submit that receives an empty-items
payload makes only the fetch call, renders that payload and deletes the
session. -/
theorem adaptive_terminal_scoring_witness :
    (submitAnswer demoStore "F1" "R1" "Never"
        (Except.ok terminalPayload)).2.2 = [NetCall.fetchNext]
    ∧ viewPayload (submitAnswer demoStore "F1" "R1" "Never"
        (Except.ok terminalPayload)).2.1 = some terminalPayload
    ∧ storeGet (submitAnswer demoStore "F1" "R1" "Never"
        (Except.ok terminalPayload)).1 "F1" = none := by
  have h := adaptive_terminal_scoring demoStore "F1" adaptSession itemQ1
    "R1" "Never" terminalPayload (by decide) rfl rfl rfl
  exact ⟨h.1, h.2.1, h.2.2.1⟩

theorem goodSession_append (s : Session) (hg : goodSession s)
    (iid key q resp : String) (sk : Bool) :
    goodSession { s with
      responses := s.responses ++
        [{ ItemID := iid, ItemResponseOID := key
         , Order := s.responses.length + 1 }]
      , history := s.history ++
        [{ itemId := iid, question := q, response := resp, skipped := sk }] } := by
  obtain ⟨h1, h2⟩ := hg
  constructor
  · simp [h1]
  · unfold ordersOk at h2 ⊢
    simp [List.map_append, h2, List.range'_1_concat, Nat.add_comm]

theorem loadNextSync_preserves (st : Store) (oid : String)
    (rb : Option (List Response × List HistoryEntry))
    (net : Except String Payload) (h : storeGood st)
    (hrb : ∀ x, rb = some x → x.1.length = x.2.length ∧ ordersOk x.1) :
    storeGood (loadNextSync st oid rb net).1 := by
  cases hg : storeGet st oid with
  | none =>
    unfold loadNextSync
    rw [hg]
    exact h
  | some s =>
    cases net with
    | error e =>
      cases rb with
      | none =>
        unfold loadNextSync loadNextArrival
        rw [hg]
        exact h
      | some x =>
        obtain ⟨rs, hl⟩ := x
        rw [loadNextSync_error_rollback st oid s rs hl e hg]
        exact storeGood_set _ _ _ h (hrb (rs, hl) rfl)
    | ok p =>
      cases hp : p.Items with
      | nil =>
        rw [loadNextSync_terminal st oid s rb p hg hp]
        exact storeGood_delete _ _ (storeGood_set _ _ _ h (h oid s hg))
      | cons it rest =>
        rw [loadNextSync_question st oid s rb p it rest hg hp]
        exact storeGood_set _ _ _ h (h oid s hg)

theorem submitAnswer_preserves (st : Store) (oid k l : String)
    (net : Except String Payload) (h : storeGood st) :
    storeGood (submitAnswer st oid k l net).1 := by
  unfold submitAnswer
  split
  · exact h
  next s hg =>
    have hgs := h oid s hg
    split
    next hmode =>
      cases hci : s.currentItem with
      | none =>
        simp only [hci]
        exact h
      | some item =>
        simp only [hci, hmode]
        exact loadNextSync_preserves _ _ _ _
          (storeGood_set _ _ _ h (goodSession_append _ hgs _ _ _ _ _))
          (fun x hx => by cases hx; exact hgs)
    next hmode =>
      cases hit : s.items.get? s.currentIndex with
      | none =>
        simp only [hit]
        exact h
      | some item =>
        simp only [hit, hmode]
        split
        · exact storeGood_set _ _ _ (storeGood_set _ _ _ h
            (goodSession_append _ hgs _ _ _ _ _))
            (goodSession_append _ hgs _ _ _ _ _)
        · unfold completeFixed
          cases net with
          | ok p =>
            exact storeGood_delete _ _ (storeGood_set _ _ _
              (storeGood_set _ _ _ (storeGood_set _ _ _ h
                (goodSession_append _ hgs _ _ _ _ _))
                (goodSession_append _ hgs _ _ _ _ _))
              (goodSession_append _ hgs _ _ _ _ _))
          | error e =>
            exact storeGood_set _ _ _ (storeGood_set _ _ _ h
              (goodSession_append _ hgs _ _ _ _ _))
              (goodSession_append _ hgs _ _ _ _ _)

theorem skipItem_preserves (st : Store) (oid : String)
    (net : Except String Payload) (h : storeGood st) :
    storeGood (skipItem st oid net).1 := by
  unfold skipItem
  split
  · exact h
  next s hg =>
    have hgs := h oid s hg
    split
    · exact h
    next hmode =>
      cases hci : s.currentItem with
      | none =>
        simp only [hci]
        exact h
      | some item =>
        simp only [hci]
        exact loadNextSync_preserves _ _ _ _
          (storeGood_set _ _ _ h (goodSession_append _ hgs _ _ _ _ _))
          (fun x hx => by cases hx; exact hgs)

/-- A submit or skip operation with the settled result of the network call
it performs. -/
inductive AOp where
  | submit (k l : String) (net : Except String Payload)
  | skip (net : Except String Payload)

/-- Apply one operation to the store under a form identifier. -/
def applyOp (st : Store) : String × AOp → Store
  | (oid, .submit k l net) => (submitAnswer st oid k l net).1
  | (oid, .skip net) => (skipItem st oid net).1

/-- Run a sequence of operations. -/
def runOps (st : Store) : List (String × AOp) → Store
  | [] => st
  | op :: rest => runOps (applyOp st op) rest

/-- C2: from any store whose sessions satisfy the invariant, after any
sequence of submit/skip operations — successful or failed, adaptive or
fixed — every session still has `len(responses) = len(history)` and
response sequence numbers exactly `1, 2, ..., n` in submission order
(every prefix of the sequence is itself such a sequence, so the invariant
holds after each operation). -/
theorem responses_history_invariant (st : Store) (h : storeGood st)
    (ops : List (String × AOp)) : storeGood (runOps st ops) := by
  induction ops generalizing st with
  | nil => exact h
  | cons op rest ih =>
    obtain ⟨oid, a⟩ := op
    cases a with
    | submit k l net =>
      exact ih _ (submitAnswer_preserves st oid k l net h)
    | skip net =>
      exact ih _ (skipItem_preserves st oid net h)

/-- A terminal-free next-item payload carrying one item. -/
def questionPayload : Payload := { Items := [itemQ2] }

/-- Witness for C2: a concrete run — a successful submit, a failed skip,
then a successful skip — from the concrete one-session store keeps the
invariant. -/
theorem responses_history_invariant_witness :
    storeGood (runOps demoStore
      [("F1", AOp.submit "R1" "Never" (Except.ok questionPayload)),
       ("F1", AOp.skip (Except.error "boom")),
       ("F1", AOp.skip (Except.ok questionPayload))]) := by
  apply responses_history_invariant
  intro oid s hgs
  unfold demoStore storeGet at hgs
  split at hgs
  · injection hgs with hgs
    subst hgs
    exact ⟨rfl, rfl⟩
  · simp [storeGet] at hgs

example : jsNumberStr "1.5" = .fin ⟨15, 1⟩ := by decide
example : jsNumberStr "" = .fin ⟨0, 0⟩ := by decide
example : jsNumberStr "12abc" = .nan := by decide
example : jsParseFloatStr "12abc" = .fin ⟨12, 0⟩ := by decide
example : jsParseFloatStr "Infinity" = .posInf := by decide
example : jsParseFloatStr "" = .nan := by decide
example : decToFixed 1 ⟨6494996, 5⟩ = "64.9" := by decide
example : decToFixed 1 ⟨65, 0⟩ = "65.0" := by decide
example : decToFixed 4 ⟨15, 1⟩ = "1.5000" := by decide
example : decDisplay ⟨15, 1⟩ = "1.5" := by decide
example : decDisplay ⟨3, 0⟩ = "3" := by decide
example : strIncludes "pediatric pain interference short form 8a" "short form" = true := by decide
example : strLower "Pain" = "pain" := by decide

end Promis
